import Mathlib

/-!
Shallow embedding of the Dragino GPS-HAT single-channel LoRa gateway
(`dragino_gps_hat.cpp`): register-value derivation, SNR/RSSI decoding,
chip-variant detection, poll-cycle counter behaviour, wire-frame header
layout and the JSON body composition of the two encoders.

Machine bytes are modelled as `Nat` with explicit `% 256`; the 32-bit
counters as `Nat` with explicit `% 2^32`; the 64-bit frequency word as
`Nat` (the shifted value fits in 51 bits, so no 64-bit wrap occurs).
-/

namespace Dragino

/-- SNR decoding, from `receiveDraginoPacket` (dragino_gps_hat.cpp lines
468-479).  The raw byte is read from `REG_PKT_SNR_VALUE`.  If bit 7 is
set the code computes `value = ((~value + 1) & 0xFF) >> 2; lora_snr = -value`;
for a byte `v` the C expression `(~v + 1) & 0xFF` equals
`((255 - v % 256) + 1) % 256`.  Otherwise `lora_snr = (value & 0xFF) >> 2`. -/
def decodeSnr (raw : Nat) : Int :=
  if raw &&& 0x80 ≠ 0 then
    -(((((255 - raw % 256) + 1) % 256) >>> 2 : Nat) : Int)
  else
    (((raw &&& 0xFF) >>> 2 : Nat) : Int)

/-- RSSI decoding, from `receiveDraginoPacket` (lines 481-488): the raw
register byte minus `rssicorr`, which is 139 when `is_sx1272` (VariantA)
and 157 otherwise (SX1276, VariantB). -/
def decodeRssi (raw : Nat) (is_sx1272 : Bool) : Int :=
  (raw : Int) - (if is_sx1272 then 139 else 157)

/-- The 24-bit frequency word, from `setupDraginoLoRa` line 304:
`uint64_t frf = ((uint64_t)freq << 19) / 32000000;` where `freq` is a
`uint32_t`.  C unsigned division truncates toward zero (floor). -/
def frfValue (freq : Nat) : Nat := ((freq % 2 ^ 32) <<< 19) / 32000000

/-- Byte written to `REG_FRF_MSB` (line 305): `(uint8_t)(frf >> 16)`. -/
def frfMsb (freq : Nat) : Nat := (frfValue freq >>> 16) % 256

/-- Byte written to `REG_FRF_MID` (line 306): `(uint8_t)(frf >> 8)`. -/
def frfMid (freq : Nat) : Nat := (frfValue freq >>> 8) % 256

/-- Byte written to `REG_FRF_LSB` (line 307): `(uint8_t)(frf >> 0)`. -/
def frfLsb (freq : Nat) : Nat := frfValue freq % 256

/-- Modelled from the spec: the spec derives the frequency word as
`round(frequencyHz * 2^19 / 32_000_000)` (rounding to nearest, half up:
`floor(x + 1/2)` of the exact rational).  This is the spec's formula, kept
separate from `frfValue`, which embeds the source's truncating division. -/
def roundFrf (hz : Nat) : Nat := (hz * 2 ^ 19 + 16000000) / 32000000

/-- Chip-variant detection, from `setupDraginoLoRa` (lines 277-299).
The chip is reset, the version register is read once (`read1`); if it
equals `0x22` the chip is accepted as SX1272 (`some true`, VariantA).
Otherwise the reset line is pulsed once more and the version register is
read a second time (`read2`); `0x12` is accepted as SX1276
(`some false`, VariantB), and anything else is a failure (`none`).
The two reads are passed in as the observed bus values, in order. -/
def detectVariant (read1 read2 : Nat) : Option Bool :=
  if read1 = 0x22 then some true
  else if read2 = 0x12 then some false
  else none

/-- Return value of `setupDraginoLoRa` as a function of the two version
reads: `-1` when detection fails (line 297), `0` on success (line 389). -/
def setupResult (read1 read2 : Nat) : Int :=
  match detectVariant read1 read2 with
  | some _ => 0
  | none => -1

/-- The gateway's packet counters (global `uint32_t` variables, lines
55-59).  `cp_nb_rx_bad` and `cp_nb_rx_nocrc` are never touched by the
code paths modelled here and are omitted. -/
structure GwState where
  cp_nb_rx_rcv : Nat
  cp_nb_rx_ok : Nat
  cp_up_pkt_fwd : Nat
deriving Repr, DecidableEq

/-- Initial state: C zero-initialises file-scope `uint32_t` globals. -/
def initGwState : GwState := ⟨0, 0, 0⟩

/-- `receivePkt` (lines 225-257): clears rxDone, reads the IRQ-flags
register (`irqflags` is its observed value), increments `cp_nb_rx_rcv`;
on a payload-CRC error (`irqflags & 0x20 == 0x20`) clears the flag and
returns `false`; otherwise increments `cp_nb_rx_ok`, drains the FIFO and
returns `true`.  Counters are 32-bit, hence the `% 2^32`. -/
def receivePkt (irqflags : Nat) (st : GwState) : Bool × GwState :=
  let st1 := { st with cp_nb_rx_rcv := (st.cp_nb_rx_rcv + 1) % 2 ^ 32 }
  if irqflags &&& 0x20 = 0x20 then
    (false, st1)
  else
    (true, { st1 with cp_nb_rx_ok := (st1.cp_nb_rx_ok + 1) % 2 ^ 32 })

/-- The oracle values one poll of `receiveDraginoPacket` observes from
the hardware: the `dio0` line, the IRQ-flags register, the raw SNR and
RSSI register bytes, the received byte count and the timestamp. -/
structure PollInput where
  dio0 : Bool
  irqflags : Nat
  snrRaw : Nat
  rssiRaw : Nat
  nbBytes : Nat
  tmst : Nat
deriving Repr, DecidableEq

/-- Decoded metadata of the one uplink frame a successful poll composes
into `buff_up` (lines 497-606). -/
structure FrameMeta where
  lsnr : Int
  rssi : Int
  size : Nat
  tmst : Nat
deriving Repr, DecidableEq

/-- `receiveDraginoPacket` (lines 460-618): when `dio0` is asserted, run
`receivePkt`; on success decode SNR/RSSI and compose exactly one uplink
frame; on CRC failure (or `dio0` low) compose nothing.  `sx` is the
`is_sx1272` global chosen at setup. -/
def receiveDraginoPacket (sx : Bool) (inp : PollInput) (st : GwState) :
    Option FrameMeta × GwState :=
  if inp.dio0 then
    match receivePkt inp.irqflags st with
    | (true, st2) =>
      (some { lsnr := decodeSnr inp.snrRaw
              rssi := decodeRssi inp.rssiRaw sx
              size := inp.nbBytes % 256
              tmst := inp.tmst % 2 ^ 32 }, st2)
    | (false, st2) => (none, st2)
  else (none, st)

/-- One iteration's worth of counter-mutating work in `draginoMain`'s
loop (lines 655-669): either a poll of `receiveDraginoPacket`, or the
30-second interval firing, which calls `sendstat` and then resets all
three counters to zero (lines 663-666). -/
inductive GwOp where
  | poll (sx : Bool) (inp : PollInput)
  | statInterval
deriving Repr

/-- Effect of one `GwOp` on the counters. -/
def stepGw (st : GwState) (op : GwOp) : GwState :=
  match op with
  | .poll sx inp => (receiveDraginoPacket sx inp st).2
  | .statInterval => { st with cp_nb_rx_rcv := 0, cp_nb_rx_ok := 0, cp_up_pkt_fwd := 0 }

/-- Counter state after a sequence of loop iterations from startup. -/
def runGw (ops : List GwOp) : GwState := ops.foldl stepGw initGwState

/-- The 12-byte wire-frame header both `sendstat` (lines 421-438) and
`receiveDraginoPacket` (lines 505-528) build: protocol version 1, two
random token bytes, message type `PKT_PUSH_DATA = 0`, then the gateway
identity: the first three hardware-address bytes, `0xFF, 0xFF`, and the
last three.  Each `sa_data` byte goes through an `(unsigned char)` cast,
modelled as `% 256`. -/
def mkWireHeader (token_h token_l : Nat) (hw : Fin 6 → Nat) : List Nat :=
  [1, token_h % 256, token_l % 256, 0,
   hw 0 % 256, hw 1 % 256, hw 2 % 256, 0xFF, 0xFF,
   hw 3 % 256, hw 4 % 256, hw 5 % 256]

/-- Digits of `n` in base 10, most significant first, prepended to
`acc`; the accumulator-style loop `printf`'s `%u` conversion performs. -/
def natDecAux : Nat → List Char → List Char
  | 0, acc => acc
  | n + 1, acc => natDecAux ((n + 1) / 10) (Char.ofNat (48 + (n + 1) % 10) :: acc)
decreasing_by exact Nat.div_lt_self (Nat.succ_pos n) (by omega)

/-- Decimal rendering of an unsigned value (`%u` / `%i` on a
non-negative argument): at least one digit, no padding. -/
def natDec (n : Nat) : List Char :=
  if n = 0 then ['0'] else natDecAux n []

/-- Decimal rendering of a signed value (`%d` / `%li`): a leading minus
sign for negative values. -/
def intDec (i : Int) : List Char :=
  if i < 0 then '-' :: natDec i.natAbs else natDec i.natAbs

/-- Left-pad with `'0'` to `k` characters. -/
def zeroPad (k : Nat) (s : List Char) : List Char :=
  List.replicate (k - s.length) '0' ++ s

/-- The `%.6lf` rendering of `(double)freq / 1000000` (line 542).  A
`uint32_t` frequency is exact in a double and the quotient has exactly
six decimal places, so the printed text is the integer part followed by
the six-digit zero-padded fraction. -/
def freqField (freq : Nat) : List Char :=
  natDec (freq / 1000000) ++ '.' :: zeroPad 6 (natDec (freq % 1000000))

/-- The spreading-factor global `sf_t sf` (line 83). -/
inductive SfT where
  | SF7 | SF8 | SF9 | SF10 | SF11 | SF12
deriving Repr, DecidableEq

/-- The `",\"datr\":\"SF<n>"` chunk the `switch (sf)` at lines 549-577
copies into the buffer. -/
def datrChunk : SfT → List Char
  | .SF7 => ",\"datr\":\"SF7".data
  | .SF8 => ",\"datr\":\"SF8".data
  | .SF9 => ",\"datr\":\"SF9".data
  | .SF10 => ",\"datr\":\"SF10".data
  | .SF11 => ",\"datr\":\"SF11".data
  | .SF12 => ",\"datr\":\"SF12".data

/-- JSON body of the uplink frame, composed at lines 536-606 of
`receiveDraginoPacket` exactly as the sequence of `memcpy`/`snprintf`
appends: `rxpk` array with `tmst`, `chan`/`rfch` fixed 0, `freq` in MHz,
`stat` fixed 1, `modu` fixed LORA, `datr`, `codr` fixed 4/5, `lsnr`,
`rssi`, `size`, and an empty `data` field (the base64 encoder is
disabled; `j = 0` at line 589). -/
def uplinkBody (tmst freq : Nat) (sf : SfT) (lsnr rssi : Int) (size : Nat) :
    List Char :=
  "\x7b\"rxpk\":[".data ++ "\x7b".data ++
  "\"tmst\":".data ++ natDec tmst ++
  ",\"chan\":0,\"rfch\":0,\"freq\":".data ++ freqField freq ++
  ",\"stat\":1".data ++ ",\"modu\":\"LORA\"".data ++
  datrChunk sf ++ "BW125\"".data ++ ",\"codr\":\"4/5\"".data ++
  ",\"lsnr\":".data ++ intDec lsnr ++
  ",\"rssi\":".data ++ intDec rssi ++ ",\"size\":".data ++ natDec size ++
  ",\"data\":\"".data ++ "\"".data ++
  "\x7d".data ++ "]".data ++ "\x7d".data

/-- JSON body of the status frame, the `snprintf` at line 444 of
`sendstat` with the values the code passes: `lat`, `lon`, `alt` are the
constant globals `0.0`, `0.0`, `0` (lines 94-96), `ackr` is `(float)0`,
`dwnb`/`txnb` are the literal `0`, and the platform/mail/description
strings are the constants of lines 99-101.  `ts` is the `strftime`
timestamp (at most 23 characters in its 24-byte buffer). -/
def statusBody (ts : List Char) (rcv ok fwd : Nat) : List Char :=
  "\x7b\"stat\":\x7b\"time\":\"".data ++ ts ++
  "\",\"lati\":0.00000,\"long\":0.00000,\"alti\":0,\"rxnb\":".data ++ natDec rcv ++
  ",\"rxok\":".data ++ natDec ok ++
  ",\"rxfw\":".data ++ natDec fwd ++
  ",\"ackr\":0.0,\"dwnb\":0,\"txnb\":0,\"pfrm\":\"Single Channel Gateway\",\"mail\":\"\",\"desc\":\"\"\x7d\x7d".data

/-! ## Theorems -/

/-- C1 counterexample.  The code derives the frequency word with C's
truncating unsigned division, not rounding to nearest: at the program's
own frequency 865200000 Hz the exact quotient is 14175436.8, so the
spec's `round` gives 14175437 (LSB byte 0xCD) while the code writes
14175436 (LSB byte 0xCC). -/
theorem frf_round_counterexample :
    frfValue 865200000 ≠ roundFrf 865200000 % 2 ^ 24 ∧
    frfLsb 865200000 = 0xCC ∧ roundFrf 865200000 % 256 = 0xCD := by
  decide

/-- C1 (amended): for every 32-bit frequency the FRF register triple is
the truncating quotient `hz * 2^19 / 32000000` reduced to 24 bits and
split into MSB/MID/LSB bytes; in particular for 865200000 Hz the bytes
are 0xD8, 0x4C, 0xCC. -/
theorem frf_bytes_floor_split (hz : Nat) (h : hz < 2 ^ 32) :
    (frfMsb hz = hz * 2 ^ 19 / 32000000 % 2 ^ 24 / 2 ^ 16 ∧
     frfMid hz = hz * 2 ^ 19 / 32000000 % 2 ^ 24 / 2 ^ 8 % 2 ^ 8 ∧
     frfLsb hz = hz * 2 ^ 19 / 32000000 % 2 ^ 24 % 2 ^ 8) ∧
    (frfMsb 865200000 = 0xD8 ∧ frfMid 865200000 = 0x4C ∧
     frfLsb 865200000 = 0xCC) := by
  refine ⟨?_, by decide⟩
  unfold frfMsb frfMid frfLsb frfValue
  rw [Nat.mod_eq_of_lt h, Nat.shiftLeft_eq, Nat.shiftRight_eq_div_pow,
    Nat.shiftRight_eq_div_pow]
  refine ⟨?_, ?_, ?_⟩
  · rw [show (2 : Nat) ^ 24 = 2 ^ 16 * 2 ^ 8 by norm_num,
      Nat.mod_mul_right_div_self]
    norm_num
  · rw [show (2 : Nat) ^ 24 = 2 ^ 8 * 2 ^ 16 by norm_num,
      Nat.mod_mul_right_div_self,
      Nat.mod_mod_of_dvd _ (by decide : (2 : Nat) ^ 8 ∣ 2 ^ 16)]
    norm_num
  · rw [Nat.mod_mod_of_dvd _ (by decide : (2 : Nat) ^ 8 ∣ 2 ^ 24)]
    norm_num

/-- C1 witness: the amended statement instantiated at the program's
frequency 865200000 Hz. -/
theorem frf_bytes_floor_split_witness :
    (frfMsb 865200000 = 865200000 * 2 ^ 19 / 32000000 % 2 ^ 24 / 2 ^ 16 ∧
     frfMid 865200000 = 865200000 * 2 ^ 19 / 32000000 % 2 ^ 24 / 2 ^ 8 % 2 ^ 8 ∧
     frfLsb 865200000 = 865200000 * 2 ^ 19 / 32000000 % 2 ^ 24 % 2 ^ 8) ∧
    (frfMsb 865200000 = 0xD8 ∧ frfMid 865200000 = 0x4C ∧
     frfLsb 865200000 = 0xCC) :=
  frf_bytes_floor_split 865200000 (by decide)

/-- A 24-bit value is recomposed from its MSB/MID/LSB byte split. -/
theorem bytes_recompose (v : Nat) (h : v < 2 ^ 24) :
    v >>> 16 % 256 * 2 ^ 16 + v >>> 8 % 256 * 2 ^ 8 + v % 256 = v := by
  rw [Nat.shiftRight_eq_div_pow, Nat.shiftRight_eq_div_pow]
  omega

/-- C9: within the chip's valid frequency range (137-1020 MHz) the
register triple round-trips.  Recomposing the 24-bit word from the three
bytes and mapping it back through the inverse fixed-point formula
`word * 32000000 / 2^19` reproduces `hz` to within one frequency step
(`32000000 / 2^19` Hz): clearing the denominator `2^19`, the
reconstructed numerator `word * 32000000` lies within `32000000` below
`hz * 2^19`. -/
theorem frf_roundtrip (hz : Nat) (h1 : 137000000 ≤ hz)
    (h2 : hz ≤ 1020000000) :
    frfMsb hz * 2 ^ 16 + frfMid hz * 2 ^ 8 + frfLsb hz = frfValue hz ∧
    (frfMsb hz * 2 ^ 16 + frfMid hz * 2 ^ 8 + frfLsb hz) * 32000000 ≤
      hz * 2 ^ 19 ∧
    hz * 2 ^ 19 <
      (frfMsb hz * 2 ^ 16 + frfMid hz * 2 ^ 8 + frfLsb hz) * 32000000 +
        32000000 := by
  have hfrf : frfValue hz = hz * 2 ^ 19 / 32000000 := by
    unfold frfValue
    rw [Nat.mod_eq_of_lt (by omega), Nat.shiftLeft_eq]
  have hlt : frfValue hz < 2 ^ 24 := by rw [hfrf]; omega
  have hrec := bytes_recompose (frfValue hz) hlt
  unfold frfMsb frfMid frfLsb
  refine ⟨hrec, ?_, ?_⟩ <;> rw [hrec, hfrf] <;> omega

/-- C9 witness: the round-trip instantiated at 865200000 Hz. -/
theorem frf_roundtrip_witness :
    frfMsb 865200000 * 2 ^ 16 + frfMid 865200000 * 2 ^ 8 + frfLsb 865200000 =
      frfValue 865200000 ∧
    (frfMsb 865200000 * 2 ^ 16 + frfMid 865200000 * 2 ^ 8 +
        frfLsb 865200000) * 32000000 ≤ 865200000 * 2 ^ 19 ∧
    865200000 * 2 ^ 19 <
      (frfMsb 865200000 * 2 ^ 16 + frfMid 865200000 * 2 ^ 8 +
          frfLsb 865200000) * 32000000 + 32000000 :=
  frf_roundtrip 865200000 (by decide) (by decide)

/-- C3 counterexample.  For the raw SNR bytes 0xFD, 0xFE and 0xFF the
sign bit is set but the decoded value is 0, not negative: the claimed
formula itself yields `-((256 - 255) >> 2) = 0` at 0xFF. -/
theorem decodeSnr_negative_counterexample :
    0xFF &&& 0x80 ≠ 0 ∧ decodeSnr 0xFF = 0 ∧ ¬decodeSnr 0xFF < 0 := by
  decide

set_option maxRecDepth 8192 in
/-- C3 (amended): with the sign bit set the decoded value equals the
two's-complement formula `-(((~raw + 1) & 0xFF) >> 2)` (written byte-wise
as `-(((255 - raw + 1) % 256) >> 2)`) and is non-positive — it is
strictly negative exactly for raw bytes 0x80..0xFC, while 0xFD..0xFF
decode to 0.  With the sign bit clear the decoded value equals
`(raw & 0xFF) >> 2` and is non-negative. -/
theorem decodeSnr_sign_formula (raw : Nat) (h : raw < 256) :
    (raw &&& 0x80 ≠ 0 →
      decodeSnr raw = -((((255 - raw + 1) % 256) >>> 2 : Nat) : Int) ∧
      decodeSnr raw ≤ 0 ∧ (decodeSnr raw < 0 ↔ raw ≤ 0xFC)) ∧
    (raw &&& 0x80 = 0 →
      decodeSnr raw = (((raw &&& 0xFF) >>> 2 : Nat) : Int) ∧
      0 ≤ decodeSnr raw) := by
  revert h
  revert raw
  decide

/-- C3 witness: the amended statement instantiated at 0x84 (sign bit
set) and 0x08 (sign bit clear). -/
theorem decodeSnr_sign_formula_witness :
    (decodeSnr 0x84 = -((((255 - 0x84 + 1) % 256) >>> 2 : Nat) : Int) ∧
      decodeSnr 0x84 ≤ 0 ∧ (decodeSnr 0x84 < 0 ↔ 0x84 ≤ 0xFC)) ∧
    (decodeSnr 0x08 = (((0x08 &&& 0xFF) >>> 2 : Nat) : Int) ∧
      0 ≤ decodeSnr 0x08) :=
  ⟨(decodeSnr_sign_formula 0x84 (by decide)).1 (by decide),
   (decodeSnr_sign_formula 0x08 (by decide)).2 (by decide)⟩

/-- C4 counterexample.  The code decodes raw SNR byte 0x84 as the
two's-complement value -124 divided by 4, namely -31 — not -1 as the
spec's scenario states. -/
theorem decodeSnr_0x84_counterexample :
    decodeSnr 0x84 = -31 ∧ decodeSnr 0x84 ≠ -1 := by decide

/-- C4 (amended): raw SNR byte 0x84 decodes to -31 and raw byte 0x08
decodes to 2. -/
theorem decodeSnr_scenarios : decodeSnr 0x84 = -31 ∧ decodeSnr 0x08 = 2 := by
  decide

/-- C7: the decoded RSSI equals the raw register byte minus 139 when the
detected chip is the SX1272 (VariantA, `is_sx1272 = true`) and the raw
byte minus 157 when it is the SX1276 (VariantB). -/
theorem decodeRssi_offsets (raw : Nat) (h : raw < 256) :
    decodeRssi raw true = (raw : Int) - 139 ∧
    decodeRssi raw false = (raw : Int) - 157 := by
  constructor <;> simp [decodeRssi]

/-- C7 witness: the offsets instantiated at raw byte 0xA0. -/
theorem decodeRssi_offsets_witness :
    decodeRssi 0xA0 true = (0xA0 : Int) - 139 ∧
    decodeRssi 0xA0 false = (0xA0 : Int) - 157 :=
  decodeRssi_offsets 0xA0 (by decide)

/-- C8: startup accepts the SX1272 (VariantA) exactly when the first
version read returns its signature 0x22; otherwise reset is re-pulsed
and the SX1276 (VariantB) is accepted exactly when the second read
returns 0x12; when neither matches, detection yields no variant and
`setupDraginoLoRa` returns the fatal error -1 — there is no further
retry beyond the single re-pulse. -/
theorem detectVariant_policy (r1 r2 : Nat) :
    (detectVariant r1 r2 = some true ↔ r1 = 0x22) ∧
    (r1 ≠ 0x22 → (detectVariant r1 r2 = some false ↔ r2 = 0x12)) ∧
    (r1 ≠ 0x22 → r2 ≠ 0x12 →
      detectVariant r1 r2 = none ∧ setupResult r1 r2 = -1) := by
  by_cases h1 : r1 = 0x22 <;> by_cases h2 : r2 = 0x12 <;>
    simp [detectVariant, setupResult, h1, h2]

/-- C8 witness: a first read of 0x10 (not the SX1272 signature) followed
by a second read of 0x12 accepts the SX1276, and two unrecognized reads
make setup fail with -1. -/
theorem detectVariant_policy_witness :
    detectVariant 0x22 0x00 = some true ∧
    detectVariant 0x10 0x12 = some false ∧
    detectVariant 0x10 0x10 = none ∧ setupResult 0x10 0x10 = -1 :=
  ⟨(detectVariant_policy 0x22 0x00).1.mpr rfl,
   ((detectVariant_policy 0x10 0x12).2.1 (by decide)).mpr rfl,
   (detectVariant_policy 0x10 0x10).2.2 (by decide) (by decide)⟩

/-- C5: on a poll with the `dio0` interrupt line asserted, the received
counter is incremented exactly once (a 32-bit increment).  If the
CRC-error bit (0x20) is set in the IRQ flags, `cp_nb_rx_ok` is untouched
and no uplink frame is produced; otherwise `cp_nb_rx_ok` is incremented
exactly once and exactly one uplink frame is produced. -/
theorem poll_crc_policy (sx : Bool) (inp : PollInput) (st : GwState)
    (hd : inp.dio0 = true) :
    (receiveDraginoPacket sx inp st).2.cp_nb_rx_rcv =
      (st.cp_nb_rx_rcv + 1) % 2 ^ 32 ∧
    (inp.irqflags &&& 0x20 = 0x20 →
      (receiveDraginoPacket sx inp st).2.cp_nb_rx_ok = st.cp_nb_rx_ok ∧
      (receiveDraginoPacket sx inp st).1 = none) ∧
    (inp.irqflags &&& 0x20 ≠ 0x20 →
      (receiveDraginoPacket sx inp st).2.cp_nb_rx_ok =
        (st.cp_nb_rx_ok + 1) % 2 ^ 32 ∧
      (receiveDraginoPacket sx inp st).1 =
        some ⟨decodeSnr inp.snrRaw, decodeRssi inp.rssiRaw sx,
          inp.nbBytes % 256, inp.tmst % 2 ^ 32⟩) := by
  by_cases hc : inp.irqflags &&& 0x20 = 0x20 <;>
    simp [receiveDraginoPacket, receivePkt, hd, hc]

/-- C5 witness: one clean poll and one CRC-flagged poll from the initial
state. -/
theorem poll_crc_policy_witness :
    (receiveDraginoPacket true ⟨true, 0x40, 0x84, 0x50, 64, 123⟩
        initGwState).2.cp_nb_rx_rcv = (0 + 1) % 2 ^ 32 ∧
    (receiveDraginoPacket true ⟨true, 0x40, 0x84, 0x50, 64, 123⟩
        initGwState).1 =
      some ⟨decodeSnr 0x84, decodeRssi 0x50 true, 64 % 256, 123 % 2 ^ 32⟩ ∧
    (receiveDraginoPacket true ⟨true, 0x60, 0x84, 0x50, 64, 123⟩
        initGwState).2.cp_nb_rx_ok = initGwState.cp_nb_rx_ok ∧
    (receiveDraginoPacket true ⟨true, 0x60, 0x84, 0x50, 64, 123⟩
        initGwState).1 = none :=
  ⟨(poll_crc_policy true ⟨true, 0x40, 0x84, 0x50, 64, 123⟩
      initGwState rfl).1,
   ((poll_crc_policy true ⟨true, 0x40, 0x84, 0x50, 64, 123⟩
      initGwState rfl).2.2 (by decide)).2,
   (poll_crc_policy true ⟨true, 0x60, 0x84, 0x50, 64, 123⟩
      initGwState rfl).2.1 (by decide)⟩

/-- C6: bytes 4-11 of every wire-frame header are the first three
hardware-address bytes, `0xFF, 0xFF`, then the last three. -/
theorem header_identity_bytes (token_h token_l : Nat) (hw : Fin 6 → Nat)
    (h : ∀ i, hw i < 256) :
    (mkWireHeader token_h token_l hw).drop 4 =
      [hw 0, hw 1, hw 2, 0xFF, 0xFF, hw 3, hw 4, hw 5] := by
  simp [mkWireHeader, Nat.mod_eq_of_lt (h 0), Nat.mod_eq_of_lt (h 1),
    Nat.mod_eq_of_lt (h 2), Nat.mod_eq_of_lt (h 3), Nat.mod_eq_of_lt (h 4),
    Nat.mod_eq_of_lt (h 5)]

/-- C6 witness: for the hardware address 12 34 56 78 9A BC the header
bytes 4-11 are 12 34 56 FF FF 78 9A BC (hex). -/
theorem header_identity_bytes_witness :
    (mkWireHeader 0 0 ![0x12, 0x34, 0x56, 0x78, 0x9A, 0xBC]).drop 4 =
      [0x12, 0x34, 0x56, 0xFF, 0xFF, 0x78, 0x9A, 0xBC] := by
  have h := header_identity_bytes 0 0 ![0x12, 0x34, 0x56, 0x78, 0x9A, 0xBC]
    (by decide)
  simpa using h

/-- The forwarded-packet counter is never incremented by any step. -/
theorem stepGw_fwd (st : GwState) (op : GwOp) :
    (stepGw st op).cp_up_pkt_fwd = st.cp_up_pkt_fwd ∨
    (stepGw st op).cp_up_pkt_fwd = 0 := by
  match op with
  | .statInterval => right; rfl
  | .poll sx inp =>
    left
    by_cases hd : inp.dio0 <;>
      by_cases hc : inp.irqflags &&& 0x20 = 0x20 <;>
      simp [stepGw, receiveDraginoPacket, receivePkt, hd, hc]

/-- C10: no operation of the program ever increments `cp_up_pkt_fwd`:
after any sequence of polls and status-interval firings from startup the
forwarded counter is 0, so the `rxfw` field of every status frame is
rendered as the single character `0`. -/
theorem forwarded_always_zero (ops : List GwOp) :
    (runGw ops).cp_up_pkt_fwd = 0 ∧
    natDec (runGw ops).cp_up_pkt_fwd = ['0'] := by
  have key : ∀ (l : List GwOp) (st : GwState), st.cp_up_pkt_fwd = 0 →
      (l.foldl stepGw st).cp_up_pkt_fwd = 0 := by
    intro l
    induction l with
    | nil => intro st h; simpa using h
    | cons op l ih =>
      intro st h
      have := stepGw_fwd st op
      exact ih (stepGw st op) (by omega)
  have h0 : (runGw ops).cp_up_pkt_fwd = 0 := key ops initGwState rfl
  exact ⟨h0, by rw [h0]; rfl⟩

/-- A value below `10^k` prints in at most `k` digits. -/
theorem natDecAux_length (k : Nat) :
    ∀ n acc, n < 10 ^ k → (natDecAux n acc).length ≤ k + acc.length := by
  induction k with
  | zero =>
    intro n acc h
    obtain rfl : n = 0 := by simpa using h
    simp [natDecAux]
  | succ k ih =>
    intro n acc h
    match n with
    | 0 => simp [natDecAux]
    | m + 1 =>
      rw [natDecAux]
      have hlt : (m + 1) / 10 < 10 ^ k := by
        refine (Nat.div_lt_iff_lt_mul (by norm_num)).mpr ?_
        rw [← pow_succ]
        exact h
      have := ih ((m + 1) / 10) (Char.ofNat (48 + (m + 1) % 10) :: acc) hlt
      simp at this ⊢
      omega

/-- Rendering `%u` of a value below `10^k` takes at most `k`
characters. -/
theorem natDec_length (n k : Nat) (hk : 0 < k) (h : n < 10 ^ k) :
    (natDec n).length ≤ k := by
  unfold natDec
  split
  · simpa using hk
  · simpa using natDecAux_length k n [] h

/-- Rendering `%d` of a value of magnitude below `10^k` takes at most
`k + 1` characters (sign included). -/
theorem intDec_length (i : Int) (k : Nat) (hk : 0 < k)
    (h : i.natAbs < 10 ^ k) : (intDec i).length ≤ k + 1 := by
  unfold intDec
  split
  · simpa using natDec_length i.natAbs k hk h
  · exact Nat.le_succ_of_le (natDec_length i.natAbs k hk h)

/-- Padding to `k` characters yields exactly `k` characters when the
input is no longer than `k`. -/
theorem zeroPad_length (k : Nat) (s : List Char) (h : s.length ≤ k) :
    (zeroPad k s).length = k := by
  simp [zeroPad]
  omega

/-- The `%.6lf` frequency field of a 32-bit frequency takes at most
`4 + 1 + 6 = 11` characters. -/
theorem freqField_length (freq : Nat) (h : freq < 2 ^ 32) :
    (freqField freq).length ≤ 11 := by
  have h1 : (natDec (freq / 1000000)).length ≤ 4 :=
    natDec_length _ 4 (by norm_num) (by omega)
  have h2 : (zeroPad 6 (natDec (freq % 1000000))).length = 6 :=
    zeroPad_length 6 _ (natDec_length _ 6 (by norm_num) (by omega))
  simp [freqField]
  omega

set_option maxRecDepth 8192 in
/-- The decoded SNR of any raw byte has magnitude below 100 (it lies in
-32..31), so its `%li` rendering takes at most 3 characters. -/
theorem decodeSnr_bounds (raw : Nat) (h : raw < 256) :
    (decodeSnr raw).natAbs < 100 := by
  revert h; revert raw; decide

/-- The decoded RSSI of any raw byte has magnitude below 1000 (it lies
in -157..116), so its `%d` rendering takes at most 4 characters. -/
theorem decodeRssi_bounds (raw : Nat) (h : raw < 256) (sx : Bool) :
    (decodeRssi raw sx).natAbs < 1000 := by
  cases sx <;> simp [decodeRssi] <;> omega

/-- Every `datr` chunk takes at most 13 characters. -/
theorem datrChunk_length (sf : SfT) : (datrChunk sf).length ≤ 13 := by
  cases sf <;> decide

set_option maxRecDepth 65536 in
/-- C2: for all machine-representable inputs, the composed JSON bodies
fit their buffers with room to spare: the uplink frame (12-byte header,
body, NUL terminator) never exceeds the 2048-byte budget
(`TX_BUFF_SIZE`), and the status frame never exceeds its 1024-byte
buffer (`STATUS_SIZE`, itself within the 2048-byte budget).  Hence a
body that would exceed the budget cannot be composed at all and the
encoders never produce a truncated buffer: truncating either body at its
buffer size returns it unchanged. -/
theorem encoders_never_truncate
    (tmst freq snrRaw rssiRaw size : Nat) (sf : SfT) (sx : Bool)
    (ts : List Char) (rcv ok fwd : Nat)
    (h1 : tmst < 2 ^ 32) (h2 : freq < 2 ^ 32) (h3 : snrRaw < 256)
    (h4 : rssiRaw < 256) (h5 : size < 256) (h6 : ts.length ≤ 23)
    (h7 : rcv < 2 ^ 32) (h8 : ok < 2 ^ 32) (h9 : fwd < 2 ^ 32) :
    12 + (uplinkBody tmst freq sf (decodeSnr snrRaw)
        (decodeRssi rssiRaw sx) size).length + 1 ≤ 2048 ∧
    (uplinkBody tmst freq sf (decodeSnr snrRaw)
        (decodeRssi rssiRaw sx) size).take 2048 =
      uplinkBody tmst freq sf (decodeSnr snrRaw)
        (decodeRssi rssiRaw sx) size ∧
    12 + (statusBody ts rcv ok fwd).length + 1 ≤ 1024 ∧
    (statusBody ts rcv ok fwd).take 1024 = statusBody ts rcv ok fwd := by
  have hs := decodeSnr_bounds snrRaw h3
  have hr := decodeRssi_bounds rssiRaw h4 sx
  have hd := datrChunk_length sf
  have hf := freqField_length freq h2
  have htm : (natDec tmst).length ≤ 10 :=
    natDec_length _ 10 (by norm_num) (h1.trans_le (by norm_num))
  have hsn : (intDec (decodeSnr snrRaw)).length ≤ 3 :=
    intDec_length _ 2 (by norm_num) hs
  have hrs : (intDec (decodeRssi rssiRaw sx)).length ≤ 4 :=
    intDec_length _ 3 (by norm_num) hr
  have hsz : (natDec size).length ≤ 3 :=
    natDec_length _ 3 (by norm_num) (by omega)
  have hrcv : (natDec rcv).length ≤ 10 :=
    natDec_length _ 10 (by norm_num) (h7.trans_le (by norm_num))
  have hok : (natDec ok).length ≤ 10 :=
    natDec_length _ 10 (by norm_num) (h8.trans_le (by norm_num))
  have hfwd : (natDec fwd).length ≤ 10 :=
    natDec_length _ 10 (by norm_num) (h9.trans_le (by norm_num))
  have hub : 12 + (uplinkBody tmst freq sf (decodeSnr snrRaw)
      (decodeRssi rssiRaw sx) size).length + 1 ≤ 2048 := by
    simp [uplinkBody, List.length_append]
    omega
  have hsb : 12 + (statusBody ts rcv ok fwd).length + 1 ≤ 1024 := by
    simp [statusBody, List.length_append]
    omega
  exact ⟨hub, List.take_of_length_le (by omega), hsb,
    List.take_of_length_le (by omega)⟩

/-- C2 witness: the bounds instantiated at concrete extreme inputs. -/
theorem encoders_never_truncate_witness :
    12 + (uplinkBody 4294967295 4294967295 .SF12 (decodeSnr 0x84)
        (decodeRssi 0x00 false) 255).length + 1 ≤ 2048 ∧
    (uplinkBody 4294967295 4294967295 .SF12 (decodeSnr 0x84)
        (decodeRssi 0x00 false) 255).take 2048 =
      uplinkBody 4294967295 4294967295 .SF12 (decodeSnr 0x84)
        (decodeRssi 0x00 false) 255 ∧
    12 + (statusBody ("2026-10-11 00:00:00 GMT".data) 4294967295 4294967295
        4294967295).length + 1 ≤ 1024 ∧
    (statusBody ("2026-10-11 00:00:00 GMT".data) 4294967295 4294967295
        4294967295).take 1024 =
      statusBody ("2026-10-11 00:00:00 GMT".data) 4294967295 4294967295
        4294967295 :=
  encoders_never_truncate 4294967295 4294967295 0x84 0x00 255 .SF12 false
    ("2026-10-11 00:00:00 GMT".data) 4294967295 4294967295 4294967295
    (by decide) (by decide) (by decide) (by decide) (by decide) (by decide)
    (by decide) (by decide) (by decide)

end Dragino
